import Mathlib

/-!
Verification of the growth-record prediction and trend-analysis pipeline of
the AI_under5 backend.  The Python source is shallowly embedded: feature
dictionaries become structures with `Option` fields (a `none` field models a
missing dictionary key), Python floats become rationals, exceptions become
`Except Unit`, and the database becomes an explicit list-based state.
-/

namespace AIUnder5

/-! ## Feature dictionary (`Dict[str, Any]` passed to the prediction adapter)

The 17 keys listed in `_prepare_prediction_features`; a `none` value models
an absent key, so that `features.get(k, d)` becomes `Option.getD` and
`features[k]` becomes a lookup that may raise `KeyError`. -/

structure Features where
  Age_Months : Option ℚ := none
  Sex : Option String := none
  Weight_kg : Option ℚ := none
  Height_cm : Option ℚ := none
  HeadCircumference_cm : Option ℚ := none
  MUAC_cm : Option ℚ := none
  BMI : Option ℚ := none
  Diet_Diversity_Score : Option ℚ := none
  Recent_Infection : Option String := none
  Weight_for_Age_ZScore : Option ℚ := none
  Height_for_Age_ZScore : Option ℚ := none
  BMI_for_Age_ZScore : Option ℚ := none
  MUAC_for_Age_ZScore : Option ℚ := none
  Weight_for_Age_Percentile : Option ℚ := none
  Height_for_Age_Percentile : Option ℚ := none
  BMI_for_Age_Percentile : Option ℚ := none
  MUAC_for_Age_Percentile : Option ℚ := none
  deriving DecidableEq

/-- The dict returned by `predict_malnutrition_risk` and friends. -/
structure Prediction where
  malnutrition_status : String
  developmental_risk : String
  deriving DecidableEq

/-- `MLModels.malnutrition_labels` (model_loader.py, lines 20-26). -/
def malnutrition_labels : List (Int × String) :=
  [(0, "Normal"), (1, "Stunting"), (2, "Underweight"), (3, "Overweight"), (4, "Severe")]

/-- `MLModels.risk_labels` (model_loader.py, lines 28-32). -/
def risk_labels : List (Int × String) :=
  [(0, "No Risk"), (1, "At Risk"), (2, "High Risk")]

/-- Python `labels.get(k, default)` on the label tables above. -/
def labelsGet (labels : List (Int × String)) (k : Int) (default : String) : String :=
  ((labels.find? (fun p => p.1 == k)).map (fun p => p.2)).getD default

/-- `MLModels._get_fallback_prediction` (model_loader.py, lines 296-325).
Reads the three keys with `dict.get` defaults (BMI default 16, Z-scores
default 0), classifies by the ordered threshold rules, then derives the
risk from the status. -/
def get_fallback_prediction (features : Features) : Prediction :=
  let bmi := features.BMI.getD 16
  let height_zscore := features.Height_for_Age_ZScore.getD 0
  let weight_zscore := features.Weight_for_Age_ZScore.getD 0
  let malnutrition_status : String :=
    if height_zscore < -2 then "Stunting"
    else if weight_zscore < -2 then "Underweight"
    else if bmi > 25 then "Overweight"
    else if weight_zscore < -3 ∨ height_zscore < -3 then "Severe"
    else "Normal"
  let developmental_risk : String :=
    if malnutrition_status ∈ ["Severe"] then "High Risk"
    else if malnutrition_status ∈ ["Stunting", "Underweight", "Overweight"] then "At Risk"
    else "No Risk"
  { malnutrition_status := malnutrition_status, developmental_risk := developmental_risk }

/-! ## Spec-side formulation of the fallback rules (for the refinement claim C1) -/

/-- Spec formulation of the ordered threshold rules: height-for-age Z < -2
gives Stunting; else weight-for-age Z < -2 gives Underweight; else BMI > 25
gives Overweight; else weight Z < -3 or height Z < -3 gives Severe; else
Normal. -/
def specFallbackStatus (height_zscore weight_zscore bmi : ℚ) : String :=
  if height_zscore < -2 then "Stunting"
  else if weight_zscore < -2 then "Underweight"
  else if bmi > 25 then "Overweight"
  else if weight_zscore < -3 ∨ height_zscore < -3 then "Severe"
  else "Normal"

/-- Spec formulation of the fixed risk rule: Severe gives High Risk;
Stunting, Underweight or Overweight gives At Risk; Normal gives No Risk. -/
def specRiskFromStatus (s : String) : String :=
  if s = "Severe" then "High Risk"
  else if s = "Stunting" ∨ s = "Underweight" ∨ s = "Overweight" then "At Risk"
  else "No Risk"

/-! ## Prediction adapter primary path -/

/-- `MLModels._infer_risk_from_malnutrition` (model_loader.py, lines
206-213). -/
def infer_risk_from_malnutrition (malnutrition_pred : Int) : Int :=
  if malnutrition_pred ∈ [(4 : Int)] then 2
  else if malnutrition_pred ∈ [(1 : Int), 2, 3] then 1
  else 0

/-- Python dict indexing `d[k]`: raises `KeyError` when the key is absent. -/
def dictIndex (o : Option α) : Except Unit α :=
  match o with
  | some v => .ok v
  | none => .error ()

/-- `MLModels._prepare_prediction_features` (model_loader.py, lines
169-196): direct `features[k]` indexing, so a missing key raises
`KeyError`; Sex and Recent_Infection are encoded to 0/1. -/
def prepare_prediction_features (features : Features) : Except Unit (List ℚ) := do
  let sexStr ← dictIndex features.Sex
  let infStr ← dictIndex features.Recent_Infection
  let sex_encoded : ℚ := if sexStr = "Male" then 1 else 0
  let infection_encoded : ℚ := if infStr = "Yes" then 1 else 0
  let age ← dictIndex features.Age_Months
  let weight ← dictIndex features.Weight_kg
  let height ← dictIndex features.Height_cm
  let head_circumference ← dictIndex features.HeadCircumference_cm
  let muac ← dictIndex features.MUAC_cm
  let bmi ← dictIndex features.BMI
  let dds ← dictIndex features.Diet_Diversity_Score
  let wz ← dictIndex features.Weight_for_Age_ZScore
  let hz ← dictIndex features.Height_for_Age_ZScore
  let bz ← dictIndex features.BMI_for_Age_ZScore
  let mz ← dictIndex features.MUAC_for_Age_ZScore
  let wp ← dictIndex features.Weight_for_Age_Percentile
  let hp ← dictIndex features.Height_for_Age_Percentile
  let bp ← dictIndex features.BMI_for_Age_Percentile
  let mp ← dictIndex features.MUAC_for_Age_Percentile
  return [age, sex_encoded, weight, height, head_circumference, muac, bmi, dds,
    infection_encoded, wz, hz, bz, mz, wp, hp, bp, mp]

/-- The opaque prediction model: feature vector in, list of label codes
out; `Except` models a raising `predict`. -/
def PredictModel : Type := List ℚ → Except Unit (List Int)

/-- The format dispatch of `predict_malnutrition_risk` (model_loader.py,
lines 113-124) on a list result: two or more outputs give the
(malnutrition, risk) pair; a single output infers the risk by the fixed
rule; an empty result raises `IndexError` when `predictions[0]` is read. -/
def dispatch_predictions (predictions : List Int) : Except Unit (Int × Int) :=
  match predictions with
  | p0 :: p1 :: _ => .ok (p0, p1)
  | [p0] => .ok (p0, infer_risk_from_malnutrition p0)
  | [] => .error ()

/-- The `try` block of `MLModels.predict_malnutrition_risk`
(model_loader.py, lines 103-133): prepare features, call the model,
dispatch the output shape, and map the codes to labels with defaults. -/
def primary_prediction (m : PredictModel) (features : Features) : Except Unit Prediction := do
  let feature_vector ← prepare_prediction_features features
  let predictions ← m feature_vector
  let (malnutrition_pred, risk_pred) ← dispatch_predictions predictions
  return { malnutrition_status := labelsGet malnutrition_labels malnutrition_pred "Normal",
           developmental_risk := labelsGet risk_labels risk_pred "No Risk" }

/-- `MLModels.predict_malnutrition_risk` (model_loader.py, lines 97-137):
no model, or any exception in the primary path, falls back to the
rule-based prediction. -/
def predict_malnutrition_risk (model : Option PredictModel) (features : Features) :
    Prediction :=
  match model with
  | none => get_fallback_prediction features
  | some m =>
    match primary_prediction m features with
    | .ok result => result
    | .error _ => get_fallback_prediction features

/-! ## Recommendation adapter (`MLModels.get_recommendation` and fallback) -/

/-- `MLModels.recommendations` table for Swahili
(model_loader.py, lines 331-363): association list keyed by
(malnutrition status, developmental risk). -/
def recommendations_swahili : List ((String × String) × String) :=
  [(("Normal", "No Risk"),
    "Mtoto wako anakua vizuri! Endelea kumpa vyakula vya usawa pamoja na matunda, mboga, nafaka, na protini. Tunza nyakati za kawaida za chakula na uhakikishe mazoezi ya kutosha ya kimwili. Tembelea kliniki kwa uchunguzi wa kawaida ili kudumisha ukuaji mzuri."),
   (("Stunting", "At Risk"),
    "Mtoto wako anaonyesha dalili za udogo ambao unaathiri ukuazi wa urefu. Mpe vyakula vyenye protini nyingi kama maharagwe, karanga, mayai, maziwa, na samaki. Jumuisha vyakula vyenye chuma na matunda kwa vitamini. Tafadhali tembelea kliniki haraka kwa ufuatiliaji wa ukuaji na ushauri wa lishe."),
   (("Stunting", "High Risk"),
    "Mtoto wako ana udogo mkubwa unaohitaji umakini wa haraka. Ongeza ulaji wa protini kwa maharagwe, nyama, mayai, na maziwa kila siku. Ongeza vyakula vyenye virutubisho vingi na fikiria programu za kulisha za matibabu. Tembelea kliniki haraka kwa utunzaji maalum na ufuatiliaji."),
   (("Underweight", "At Risk"),
    "Mtoto wako ana uzito mdogo na anahitaji chakula chenye lishe zaidi. Ongeza vyakula vyenye kalori nyingi kama karanga, parachichi, na mafuta ya kupikia katika vyakula. Mpe vyakula vidogo vya mara kwa mara vyenye protini na mafuta mazuri. Tafadhali tembelea kliniki kwa tathmini ya ukuaji na mwongozo wa kulisha."),
   (("Underweight", "High Risk"),
    "Mtoto wako ana upungufu mkubwa wa uzito na anahitaji uingiliaji kazi wa haraka. Ongeza mzunguko wa chakula na ongeza vyakula vya nishati ya juu kila siku. Jumuisha vyakula vya matibabu ikiwa vinapatikana na uhakikishe matibabu ya maambukizi yoyote. Tembelea kituo cha afya haraka kwa utunzaji maalum."),
   (("Overweight", "At Risk"),
    "Mtoto wako ana uzito mkubwa ambao unaweza kuathiri maendeleo mazuri. Punguza vyakula vyenye sukari na ongeza matunda na mboga. Himiza mchezo mkuu na punguza wakati wa kuketi. Tembelea kliniki kwa tathmini sahihi na mwongozo wa tabia za kula nzuri."),
   (("Overweight", "High Risk"),
    "Mtoto wako ana uzito mkubwa unaohitaji usimamizi makini. Zingatia vyakula vyenye lishe, vyenye usawa bila sukari au mafuta mengi. Ongeza mazoezi ya kimwili kupitia mchezo na michezo. Tafadhali tembelea kliniki kwa tathmini ya kina na mpango wa usimamizi wa uzito."),
   (("Severe", "High Risk"),
    "Mtoto wako ana utapiamlo mkubwa unaohitaji umakini wa matibabu wa haraka. Hii ni hali mbaya inayohitaji matibabu ya haraka. Tembelea hospitali au kliniki mara moja kwa huduma za dharura. Fuata ushauri wote wa kimatibabu na itifaki za kulisha za matibabu kwa ukali.")]

/-- `MLModels.recommendations` table for English
(model_loader.py, lines 365-397). -/
def recommendations_english : List ((String × String) × String) :=
  [(("Normal", "No Risk"),
    "Your child is growing well! Continue providing balanced meals with fruits, vegetables, grains, and proteins. Keep regular meal times and ensure adequate physical activity. Visit the clinic for routine check-ups to maintain healthy growth."),
   (("Stunting", "At Risk"),
    "Your child shows signs of stunting which affects height growth. Provide protein-rich foods like beans, groundnuts, eggs, milk, and fish. Include iron-rich foods and fruits for vitamins. Please visit the clinic immediately for growth monitoring and nutritional counseling."),
   (("Stunting", "High Risk"),
    "Your child has severe stunting requiring urgent attention. Increase protein intake with beans, meat, eggs, and milk daily. Add nutrient-dense foods and consider therapeutic feeding programs. Visit the clinic urgently for specialized care and monitoring."),
   (("Underweight", "At Risk"),
    "Your child is underweight and needs more nutritious food. Add calorie-dense foods like groundnuts, avocados, and cooking oil to meals. Provide frequent small meals with proteins and healthy fats. Please visit the clinic for growth assessment and feeding guidance."),
   (("Underweight", "High Risk"),
    "Your child is severely underweight and needs immediate intervention. Increase meal frequency and add high-energy foods daily. Include therapeutic foods if available and ensure treatment for any infections. Visit the health facility urgently for specialized care."),
   (("Overweight", "At Risk"),
    "Your child is overweight which can affect healthy development. Reduce sugary foods and increase fruits and vegetables. Encourage active play and limit sedentary time. Visit the clinic for proper assessment and guidance on healthy eating habits."),
   (("Overweight", "High Risk"),
    "Your child has significant overweight requiring careful management. Focus on nutritious, balanced meals without excess sugars or fats. Increase physical activity through play and sports. Please visit the clinic for comprehensive evaluation and weight management plan."),
   (("Severe", "High Risk"),
    "Your child has severe malnutrition requiring immediate medical attention. This is a serious condition that needs urgent treatment. Visit the hospital or clinic immediately for emergency care. Follow all medical advice and therapeutic feeding protocols strictly.")]

/-- The generic safe message of `_get_fallback_recommendation`
(model_loader.py, lines 400-406), per language. -/
def default_message (language : String) : String :=
  if language = "swahili" then
    "Kulingana na hali ya lishe ya mtoto wako, tafadhali mpe vyakula vya usawa vyenye protini, matunda, na mboga. Tembelea kliniki ya karibu kwa tathmini sahihi na mwongozo binafsi kuhusu lishe na ukuaji wa mtoto wako."
  else
    "Based on your child\x27s nutritional status, please provide balanced meals with proteins, fruits, and vegetables. Visit your local clinic for proper assessment and personalized guidance on your child\x27s nutrition and growth."

/-- `MLModels._get_fallback_recommendation` (model_loader.py, lines
327-408): pick the language table, look up the (status, risk) pair, and
fall back to the generic message. -/
def get_fallback_recommendation (malnutrition_status developmental_risk : String)
    (language : String) : String :=
  let recommendations :=
    if language = "swahili" then recommendations_swahili else recommendations_english
  let key := (malnutrition_status, developmental_risk)
  ((recommendations.find? (fun p => p.1 == key)).map (fun p => p.2)).getD
    (default_message language)

/-- `MLModels._translate_recommendation_to_swahili` (model_loader.py, lines
410-413): ignores the English text and returns the hardcoded Swahili table
entry. -/
def translate_recommendation_to_swahili (english_rec : String)
    (malnutrition_status developmental_risk : String) : String :=
  get_fallback_recommendation malnutrition_status developmental_risk "swahili"

/-- `MLModels._prepare_recommendation_input` (model_loader.py, lines
198-204): inverts the label tables; an unknown label raises `KeyError`. -/
def prepare_recommendation_input (malnutrition_status developmental_risk : String) :
    Except Unit (List Int) := do
  let malnutrition_encoded ←
    dictIndex (((malnutrition_labels.find? (fun p => p.2 == malnutrition_status)).map
      (fun p => p.1)))
  let risk_encoded ←
    dictIndex (((risk_labels.find? (fun p => p.2 == developmental_risk)).map
      (fun p => p.1)))
  return [malnutrition_encoded, risk_encoded]

/-- The opaque recommendation model: encoded categorical pair in, text out;
`Except` models a raising `predict`. -/
def RecommendModel : Type := List Int → Except Unit String

/-- The `try` block of `MLModels.get_recommendation` (model_loader.py,
lines 144-163): encode the inputs, call the model, and for Swahili replace
the English output via `_translate_recommendation_to_swahili`. -/
def primary_recommendation (m : RecommendModel)
    (malnutrition_status developmental_risk language : String) : Except Unit String := do
  let input_data ← prepare_recommendation_input malnutrition_status developmental_risk
  let recommendation ← m input_data
  let english_recommendation := recommendation
  if language = "swahili" then
    return translate_recommendation_to_swahili english_recommendation
      malnutrition_status developmental_risk
  else
    return english_recommendation

/-- `MLModels.get_recommendation` (model_loader.py, lines 139-167): no
model, or any exception in the primary path, falls back to the static
table. -/
def get_recommendation (model : Option RecommendModel)
    (malnutrition_status developmental_risk : String)
    (language : String) : String :=
  match model with
  | none => get_fallback_recommendation malnutrition_status developmental_risk language
  | some m =>
    match primary_recommendation m malnutrition_status developmental_risk language with
    | .ok recommendation => recommendation
    | .error _ => get_fallback_recommendation malnutrition_status developmental_risk language

/-! ## Data model (alembic migration 0002 and crud/children.py)

UUIDs are modelled as naturals and timestamps/dates as integers. -/

/-- A row of the `children` table. -/
structure Child where
  child_id : Nat
  parent_id : Nat
  name : String
  sex : String
  birth_date : Int
  created_at : Int
  deriving DecidableEq

/-- A row of the `growth_records` table; the two JSON columns are
association lists. -/
structure GrowthRecord where
  record_id : Nat
  child_id : Nat
  age_months : Int
  weight_kg : ℚ
  height_cm : ℚ
  muac_cm : Option ℚ
  bmi : Option ℚ
  diet_diversity_score : Int
  recent_infection : Bool
  z_scores_percentiles : Option (List (String × ℚ))
  prediction_results : Option (List (String × String))
  recorded_at : Int
  deriving DecidableEq

/-- The validated payload `GrowthRecordCreate` (schemas/children.py). -/
structure GrowthRecordCreate where
  age_months : Int
  weight_kg : ℚ
  height_cm : ℚ
  muac_cm : Option ℚ := none
  diet_diversity_score : Int
  recent_infection : Bool := false
  weight_for_age_zscore : Option ℚ := none
  height_for_age_zscore : Option ℚ := none
  bmi_for_age_zscore : Option ℚ := none
  muac_for_age_zscore : Option ℚ := none
  weight_for_age_percentile : Option ℚ := none
  height_for_age_percentile : Option ℚ := none
  bmi_for_age_percentile : Option ℚ := none
  muac_for_age_percentile : Option ℚ := none
  deriving DecidableEq

/-- The database state: the two tables the pipeline touches. -/
structure DB where
  children : List Child
  records : List GrowthRecord
  deriving DecidableEq

/-- `fastapi.HTTPException`. -/
structure HTTPException where
  status_code : Nat
  detail : String
  deriving DecidableEq

/-- The 404 raised by the ownership checks in crud/children.py. -/
def childNotFoundError : HTTPException :=
  { status_code := 404, detail := "Child not found" }

/-- `get_child_by_id` (crud/children.py, lines 47-54): the child row
matching both the child id and the requesting parent id (`child_id` is the
primary key, so `find?` models `scalar_one_or_none`). -/
def get_child_by_id (db : DB) (child_id parent_id : Nat) : Option Child :=
  db.children.find? (fun c => c.child_id == child_id && c.parent_id == parent_id)

/-- Python bankers rounding to the nearest integer (ties to even), the
behaviour of `round` on an exact value. -/
def pythonRound (x : ℚ) : ℤ :=
  let f := ⌊x⌋
  let frac := x - f
  if frac < 1 / 2 then f
  else if 1 / 2 < frac then f + 1
  else if f % 2 = 0 then f else f + 1

/-- Python `round(x, 2)`. -/
def round2 (x : ℚ) : ℚ := (pythonRound (x * 100) : ℚ) / 100

/-- `calculate_bmi` (crud/children.py, lines 57-60). -/
def calculate_bmi (weight_kg height_cm : ℚ) : ℚ :=
  let height_m := height_cm / 100
  round2 (weight_kg / height_m ^ 2)

/-- The conditional dict build of `create_growth_record` (crud/children.py,
lines 97-113), in insertion order. -/
def build_z_scores_percentiles (record_data : GrowthRecordCreate) : List (String × ℚ) :=
  (match record_data.weight_for_age_zscore with
   | some v => [("weight_for_age_zscore", v)]
   | none => []) ++
  (match record_data.height_for_age_zscore with
   | some v => [("height_for_age_zscore", v)]
   | none => []) ++
  (match record_data.bmi_for_age_zscore with
   | some v => [("bmi_for_age_zscore", v)]
   | none => []) ++
  (match record_data.muac_for_age_zscore with
   | some v => [("muac_for_age_zscore", v)]
   | none => []) ++
  (match record_data.weight_for_age_percentile with
   | some v => [("weight_for_age_percentile", v)]
   | none => []) ++
  (match record_data.height_for_age_percentile with
   | some v => [("height_for_age_percentile", v)]
   | none => []) ++
  (match record_data.bmi_for_age_percentile with
   | some v => [("bmi_for_age_percentile", v)]
   | none => []) ++
  (match record_data.muac_for_age_percentile with
   | some v => [("muac_for_age_percentile", v)]
   | none => [])

/-- `create_growth_record` (crud/children.py, lines 77-131): ownership
check, BMI computation, row construction and insert.  The database-assigned
primary key and timestamp are passed explicitly. -/
def create_growth_record (db : DB) (child_id : Nat) (record_data : GrowthRecordCreate)
    (parent_id : Nat) (record_id : Nat) (now : Int) :
    Except HTTPException (GrowthRecord × DB) :=
  match get_child_by_id db child_id parent_id with
  | none => .error childNotFoundError
  | some _ =>
    let calculated_bmi := calculate_bmi record_data.weight_kg record_data.height_cm
    let z_scores_percentiles := build_z_scores_percentiles record_data
    let db_record : GrowthRecord :=
      { record_id := record_id
        child_id := child_id
        age_months := record_data.age_months
        weight_kg := record_data.weight_kg
        height_cm := record_data.height_cm
        muac_cm := record_data.muac_cm
        bmi := some calculated_bmi
        diet_diversity_score := record_data.diet_diversity_score
        recent_infection := record_data.recent_infection
        z_scores_percentiles :=
          if z_scores_percentiles.isEmpty then none else some z_scores_percentiles
        prediction_results := none
        recorded_at := now }
    .ok (db_record, { db with records := db.records ++ [db_record] })

/-- Stable insertion into a list sorted non-decreasingly by `key`. -/
def insertByKey (key : α → Int) (x : α) : List α → List α
  | [] => [x]
  | y :: ys => if key x ≤ key y then x :: y :: ys else y :: insertByKey key x ys

/-- Stable sort by an integer key: Python `sorted(xs, key)` and the SQL
order-by (descending orders use a negated key; ties keep arrival order). -/
def sortByKey (key : α → Int) : List α → List α
  | [] => []
  | x :: xs => insertByKey key x (sortByKey key xs)

/-- `get_child_growth_history` (crud/children.py, lines 170-193):
ownership check, then the child rows ordered by `recorded_at` descending;
`if limit:` applies the limit only when it is non-None and non-zero. -/
def get_child_growth_history (db : DB) (child_id parent_id : Nat) (limit : Option Nat) :
    Except HTTPException (List GrowthRecord) :=
  match get_child_by_id db child_id parent_id with
  | none => .error childNotFoundError
  | some _ =>
    let sorted := sortByKey (fun r => -r.recorded_at)
      (db.records.filter (fun r => r.child_id == child_id))
    .ok (match limit with
      | some n => if n ≠ 0 then sorted.take n else sorted
      | none => sorted)

/-- The dict returned by `analyze_growth_trends`; `total_records` is absent
(`none`) on the early fewer-than-2-records return. -/
structure TrendsResult where
  trends : List (String × String)
  alerts : List String
  total_records : Option Nat
  deriving DecidableEq

/-- The first-versus-last classification block of `analyze_growth_trends`
(crud/children.py, lines 223-243), shared by the weight pass
(label "weight", alert "Weight showing decreasing trend") and the height
pass (label "height", alert "Height showing concerning pattern"): returns
the trend entries and the alerts it appends. -/
def trend_entry (label alertText : String) (values : List ℚ) :
    List (String × String) × List String :=
  if 2 ≤ values.length then
    if values.getLastD 0 > values.headD 0 then ([(label, "increasing")], [])
    else if values.getLastD 0 < values.headD 0 then ([(label, "decreasing")], [alertText])
    else ([(label, "stable")], [])
  else ([], [])

/-- `severe_statuses` (crud/children.py, line 247). -/
def severe_statuses : List String := ["Severe", "Stunting", "Underweight"]

/-- The malnutrition-alert scan of `analyze_growth_trends`
(crud/children.py, lines 245-252): the truthy stored predictions of the 3
most recent records, scanned for the first concerning status (then stop). -/
def nutrition_alerts (records : List GrowthRecord) : List String :=
  let recent_predictions :=
    ((records.drop (records.length - 3)).filterMap (fun r => r.prediction_results)).filter
      (fun pred => !pred.isEmpty)
  match recent_predictions.find? (fun pred =>
      match pred.lookup "malnutrition_status" with
      | some s => severe_statuses.contains s
      | none => false) with
  | some pred =>
    ["Concerning nutritional status: " ++ ((pred.lookup "malnutrition_status").getD "None")]
  | none => []

/-- `analyze_growth_trends` (crud/children.py, lines 206-258). -/
def analyze_growth_trends (db : DB) (child_id parent_id : Nat) :
    Except HTTPException TrendsResult :=
  match get_child_growth_history db child_id parent_id (some 5) with
  | .error e => .error e
  | .ok records0 =>
    if records0.length < 2 then
      .ok { trends := [], alerts := [], total_records := none }
    else
      let records := sortByKey (fun r => r.age_months) records0
      let wpart := trend_entry "weight" "Weight showing decreasing trend"
        (records.map (fun r => r.weight_kg))
      let hpart := trend_entry "height" "Height showing concerning pattern"
        (records.map (fun r => r.height_cm))
      .ok { trends := wpart.1 ++ hpart.1,
            alerts := wpart.2 ++ hpart.2 ++ nutrition_alerts records,
            total_records := some records.length }

/-- Spec formulation of the strict-inequality trend classification. -/
def trend_classification (first last : ℚ) : String :=
  if last > first then "increasing"
  else if last < first then "decreasing"
  else "stable"

/-- The eight (status, risk) keys of the fallback recommendation table. -/
def recommendation_keys : List (String × String) :=
  [("Normal", "No Risk"), ("Stunting", "At Risk"), ("Stunting", "High Risk"),
   ("Underweight", "At Risk"), ("Underweight", "High Risk"),
   ("Overweight", "At Risk"), ("Overweight", "High Risk"), ("Severe", "High Risk")]

/-! ## Concrete fixtures used by witnesses -/

/-- A child owned by parent 1. -/
def exChild : Child :=
  { child_id := 1, parent_id := 1, name := "Asha", sex := "Female", birth_date := 0,
    created_at := 0 }

/-- A valid growth-record payload. -/
def exCreate : GrowthRecordCreate :=
  { age_months := 12, weight_kg := 10, height_cm := 80, diet_diversity_score := 5 }

/-- A database with one child and no growth records. -/
def exDB : DB := { children := [exChild], records := [] }

/-- An older and a newer growth record for child 1, with decreasing
weights 10 then 9 (oldest to newest) and equal heights. -/
def exRecOld : GrowthRecord :=
  { record_id := 1, child_id := 1, age_months := 10, weight_kg := 10, height_cm := 80,
    muac_cm := none, bmi := some 15, diet_diversity_score := 5, recent_infection := false,
    z_scores_percentiles := none, prediction_results := none, recorded_at := 100 }

def exRecNew : GrowthRecord :=
  { record_id := 2, child_id := 1, age_months := 12, weight_kg := 9, height_cm := 80,
    muac_cm := none, bmi := some 14, diet_diversity_score := 5, recent_infection := false,
    z_scores_percentiles := none, prediction_results := none, recorded_at := 200 }

/-- A database where child 1 has the two records above. -/
def exDB2 : DB := { children := [exChild], records := [exRecOld, exRecNew] }

/-- A database where child 1 has a single record. -/
def exDB1 : DB := { children := [exChild], records := [exRecOld] }

end AIUnder5

namespace AIUnder5

/-- C1: the fallback prediction applies the ordered threshold rules with the
risk derived from the status by the fixed rule, and any feature input with
height-for-age Z-score -2.5 and the other features in normal range yields
Stunting with At Risk. -/
theorem fallback_prediction_threshold_rules (f : Features)
    (hh : f.Height_for_Age_ZScore = some (-(5 / 2) : ℚ))
    (hw : (-2 : ℚ) ≤ f.Weight_for_Age_ZScore.getD 0)
    (hb : f.BMI.getD 16 ≤ 25) :
    (∀ g : Features,
      get_fallback_prediction g =
        { malnutrition_status :=
            specFallbackStatus (g.Height_for_Age_ZScore.getD 0)
              (g.Weight_for_Age_ZScore.getD 0) (g.BMI.getD 16),
          developmental_risk :=
            specRiskFromStatus
              (specFallbackStatus (g.Height_for_Age_ZScore.getD 0)
                (g.Weight_for_Age_ZScore.getD 0) (g.BMI.getD 16)) }) ∧
    get_fallback_prediction f =
      { malnutrition_status := "Stunting", developmental_risk := "At Risk" } := by
  constructor
  · intro g
    simp only [get_fallback_prediction, specFallbackStatus, specRiskFromStatus]
    split_ifs <;> simp_all
  · simp only [get_fallback_prediction, hh]
    norm_num
    decide

theorem fallback_prediction_threshold_rules_witness :
    ({ Height_for_Age_ZScore := some (-(5 / 2) : ℚ), Weight_for_Age_ZScore := some 0,
       BMI := some 16 } : Features).Height_for_Age_ZScore = some (-(5 / 2) : ℚ) ∧
    get_fallback_prediction
      { Height_for_Age_ZScore := some (-(5 / 2) : ℚ), Weight_for_Age_ZScore := some 0,
        BMI := some 16 } =
      { malnutrition_status := "Stunting", developmental_risk := "At Risk" } :=
  ⟨rfl,
    (fallback_prediction_threshold_rules
      { Height_for_Age_ZScore := some (-(5 / 2) : ℚ), Weight_for_Age_ZScore := some 0,
        BMI := some 16 }
      rfl (by norm_num) (by norm_num)).2⟩

/-- C2 counterexample: at the concrete feature input with weight-for-age
Z-score -4 and height-for-age Z-score -4 (both < -3), the fallback
prediction is Stunting with At Risk, not Severe with High Risk as the claim
states: the Stunting branch fires first. -/
theorem fallback_both_below_minus3_counterexample :
    get_fallback_prediction
      { Weight_for_Age_ZScore := some (-4), Height_for_Age_ZScore := some (-4),
        BMI := some 16 } =
      { malnutrition_status := "Stunting", developmental_risk := "At Risk" } ∧
    get_fallback_prediction
      { Weight_for_Age_ZScore := some (-4), Height_for_Age_ZScore := some (-4),
        BMI := some 16 } ≠
      { malnutrition_status := "Severe", developmental_risk := "High Risk" } := by
  constructor <;> decide

/-- C2 (amended): for every feature input whose weight-for-age and
height-for-age Z-scores are both < -3, the fallback prediction returns
Stunting with At Risk (the Stunting branch fires before the Severe branch is
reached), regardless of the BMI value. -/
theorem fallback_both_below_minus3_stunting (f : Features)
    (hw : f.Weight_for_Age_ZScore.getD 0 < -3)
    (hh : f.Height_for_Age_ZScore.getD 0 < -3) :
    get_fallback_prediction f =
      { malnutrition_status := "Stunting", developmental_risk := "At Risk" } := by
  have h2 : f.Height_for_Age_ZScore.getD 0 < -2 := by linarith
  simp only [get_fallback_prediction, if_pos h2]
  decide

theorem fallback_both_below_minus3_stunting_witness :
    ((-4 : ℚ) < -3) ∧
    get_fallback_prediction
      { Weight_for_Age_ZScore := some (-4), Height_for_Age_ZScore := some (-4) } =
      { malnutrition_status := "Stunting", developmental_risk := "At Risk" } :=
  ⟨by norm_num,
    fallback_both_below_minus3_stunting
      { Weight_for_Age_ZScore := some (-4), Height_for_Age_ZScore := some (-4) }
      (by norm_num) (by norm_num)⟩

/-- `Except.ok` is `pure`, so binding it applies the continuation. -/
theorem except_bind_ok (a : α) (f : α → Except ε β) :
    (Except.ok a >>= f : Except ε β) = f a := rfl

/-- Binding a raised exception propagates it. -/
theorem except_bind_error (e : ε) (f : α → Except ε β) :
    ((Except.error e : Except ε α) >>= f) = Except.error e := rfl

/-- When the primary recommendation path succeeds for Swahili, its output is
already the Swahili fallback table entry (the English model text was
discarded by `_translate_recommendation_to_swahili`). -/
theorem primary_recommendation_swahili_ok (m : RecommendModel) (s r v : String)
    (h : primary_recommendation m s r "swahili" = .ok v) :
    v = get_fallback_recommendation s r "swahili" := by
  unfold primary_recommendation at h
  cases hp : prepare_recommendation_input s r with
  | error e =>
    rw [hp, except_bind_error] at h
    exact absurd h (by simp)
  | ok input =>
    rw [hp, except_bind_ok] at h
    cases hm : m input with
    | error e =>
      rw [hm, except_bind_error] at h
      exact absurd h (by simp)
    | ok rec0 =>
      rw [hm, except_bind_ok] at h
      simp only [if_pos rfl] at h
      have : translate_recommendation_to_swahili rec0 s r = v := Except.ok.inj h
      rw [← this]
      rfl

/-- C5: for every (status, risk) pair, when the language is swahili,
get_recommendation returns the Swahili static-table entry for that pair (or
the Swahili generic message for unknown pairs), even when a recommendation
model is configured and succeeds: the model output is discarded, never
translated. -/
theorem get_recommendation_swahili_uses_table (model : Option RecommendModel)
    (s r : String) :
    get_recommendation model s r "swahili" =
      ((recommendations_swahili.find? (fun p => p.1 == (s, r))).map (fun p => p.2)).getD
        (default_message "swahili") := by
  have hfb : get_fallback_recommendation s r "swahili" =
      ((recommendations_swahili.find? (fun p => p.1 == (s, r))).map (fun p => p.2)).getD
        (default_message "swahili") := by
    simp [get_fallback_recommendation]
  rw [← hfb]
  cases model with
  | none => rfl
  | some m =>
    simp only [get_recommendation]
    cases hprim : primary_recommendation m s r "swahili" with
    | error e => rfl
    | ok v => exact primary_recommendation_swahili_ok m s r v hprim

/-- C6 counterexample: each language table has exactly eight entries, not
nine; in particular the pair of valid labels (Severe, At Risk) is not keyed
in the table, so it falls through to the generic message. -/
theorem fallback_table_counterexample :
    recommendations_english.length = 8 ∧ recommendations_swahili.length = 8 ∧
    recommendations_english.find? (fun p => p.1 == ("Severe", "At Risk")) = none ∧
    get_fallback_recommendation "Severe" "At Risk" "english" = default_message "english" :=
  ⟨rfl, rfl, rfl, rfl⟩

/-- C6 (amended): the fallback recommendation table contains an entry for
each of eight (status, risk) pairs — (Normal, No Risk), the three statuses
Stunting, Underweight and Overweight each paired with At Risk and High
Risk, and (Severe, High Risk) — one variant per language, and any pair not
keyed in the table (including (Severe, At Risk)) returns the generic safe
message for the requested language. -/
theorem fallback_table_eight_pairs (s r lang : String)
    (h : (s, r) ∉ recommendation_keys) :
    recommendations_english.map (fun p => p.1) = recommendation_keys ∧
    recommendations_swahili.map (fun p => p.1) = recommendation_keys ∧
    get_fallback_recommendation s r lang = default_message lang := by
  have hfind : ∀ tbl : List ((String × String) × String),
      tbl.map (fun p => p.1) = recommendation_keys →
      tbl.find? (fun p => p.1 == (s, r)) = none := by
    intro tbl htbl
    apply List.find?_eq_none.mpr
    intro x hx
    simp only [beq_iff_eq]
    intro hbeq
    apply h
    rw [← hbeq, ← htbl]
    exact List.mem_map_of_mem _ hx
  refine ⟨rfl, rfl, ?_⟩
  simp only [get_fallback_recommendation]
  by_cases hl : lang = "swahili"
  · rw [if_pos hl, hfind recommendations_swahili rfl]
    rfl
  · rw [if_neg hl, hfind recommendations_english rfl]
    rfl

theorem fallback_table_eight_pairs_witness :
    (("Severe", "At Risk") ∉ recommendation_keys) ∧
    (recommendations_english.map (fun p => p.1) = recommendation_keys ∧
     recommendations_swahili.map (fun p => p.1) = recommendation_keys ∧
     get_fallback_recommendation "Severe" "At Risk" "english" =
       default_message "english") :=
  ⟨by decide, fallback_table_eight_pairs "Severe" "At Risk" "english" (by decide)⟩

/-- C7: the adapters never propagate a model exception to the caller — in
this embedding both adapters are total functions into plain values, and
whenever the primary path raises (modelled by `Except.error`, including a
model whose predict raises), the deterministic fallback is returned
instead, for the prediction adapter and the recommendation adapter alike. -/
theorem model_exceptions_absorbed_into_fallback (pm : PredictModel) (rm : RecommendModel)
    (f : Features) (s r lang : String)
    (hp : primary_prediction pm f = .error ())
    (hr : primary_recommendation rm s r lang = .error ()) :
    predict_malnutrition_risk (some pm) f = get_fallback_prediction f ∧
    get_recommendation (some rm) s r lang = get_fallback_recommendation s r lang := by
  constructor
  · simp only [predict_malnutrition_risk, hp]
  · simp only [get_recommendation, hr]

theorem model_exceptions_absorbed_into_fallback_witness :
    predict_malnutrition_risk (some (fun _ => Except.error ()) : Option PredictModel) {} =
      get_fallback_prediction {} ∧
    get_recommendation (some (fun _ => Except.error ()) : Option RecommendModel)
        "Normal" "No Risk" "english" =
      get_fallback_recommendation "Normal" "No Risk" "english" :=
  model_exceptions_absorbed_into_fallback (fun _ => Except.error ())
    (fun _ => Except.error ()) {} "Normal" "No Risk" "english" rfl rfl

/-- C3: the Severe branch of the fallback prediction is unreachable — its
guard (weight Z < -3 or height Z < -3) implies that the Stunting or
Underweight branch already fired — so the fallback status always lies in
the set containing Normal, Stunting, Underweight and Overweight. -/
theorem fallback_severe_unreachable (f : Features) :
    (get_fallback_prediction f).malnutrition_status ∈
      ["Normal", "Stunting", "Underweight", "Overweight"] ∧
    (get_fallback_prediction f).malnutrition_status ≠ "Severe" := by
  simp only [get_fallback_prediction]
  split_ifs with h1 h2 h3 h4
  · decide
  · decide
  · decide
  · exfalso
    rcases h4 with h | h
    · exact h2 (by linarith)
    · exact h1 (by linarith)
  · decide

/-- Inserting one element grows the length by one. -/
theorem insertByKey_length (key : α → Int) (x : α) :
    ∀ l : List α, (insertByKey key x l).length = l.length + 1
  | [] => rfl
  | y :: ys => by
    unfold insertByKey
    split_ifs
    · simp
    · simp [insertByKey_length key x ys]

/-- The stable sort preserves length. -/
theorem sortByKey_length (key : α → Int) :
    ∀ l : List α, (sortByKey key l).length = l.length
  | [] => rfl
  | x :: xs => by
    unfold sortByKey
    rw [insertByKey_length, sortByKey_length key xs]
    rfl

/-- C4: for every growth-record creation with valid input (weight in
(0, 50], height in (0, 150]) that succeeds, the persisted record carries
BMI equal to round(weight_kg / (height_cm/100)^2, 2), and that record is
stored in the database. -/
theorem create_growth_record_bmi (db : DB) (child_id parent_id record_id : Nat)
    (now : Int) (record_data : GrowthRecordCreate) (rec : GrowthRecord) (db2 : DB)
    (hw : 0 < record_data.weight_kg ∧ record_data.weight_kg ≤ 50)
    (hh : 0 < record_data.height_cm ∧ record_data.height_cm ≤ 150)
    (hok : create_growth_record db child_id record_data parent_id record_id now =
      .ok (rec, db2)) :
    rec.bmi = some (round2 (record_data.weight_kg / (record_data.height_cm / 100) ^ 2)) ∧
    rec ∈ db2.records := by
  unfold create_growth_record at hok
  cases hc : get_child_by_id db child_id parent_id with
  | none =>
    rw [hc] at hok
    exact absurd hok (by simp)
  | some c =>
    rw [hc] at hok
    have hpair := Except.ok.inj hok
    simp only [Prod.mk.injEq] at hpair
    obtain ⟨hrec, hdb⟩ := hpair
    constructor
    · rw [← hrec]
      rfl
    · rw [← hdb, ← hrec]
      simp

theorem create_growth_record_bmi_witness :
    ∃ rec db2,
      create_growth_record exDB 1 exCreate 1 7 0 = .ok (rec, db2) ∧
      rec.bmi = some (round2 (exCreate.weight_kg / (exCreate.height_cm / 100) ^ 2)) ∧
      rec ∈ db2.records := by
  refine ⟨_, _, rfl, ?_⟩
  exact create_growth_record_bmi exDB 1 1 7 0 exCreate _ _
    ⟨by norm_num [exCreate], by norm_num [exCreate]⟩
    ⟨by norm_num [exCreate], by norm_num [exCreate]⟩ rfl

/-- C8: when no child row matches both the child id and the requesting
parent id, get_child_by_id returns none, and every growth-record read or
write path for that child fails with the 404 Child-not-found error — no
other tenant data is returned and the create path persists nothing. -/
theorem ownership_isolation (db : DB) (child_id parent_id : Nat)
    (record_data : GrowthRecordCreate) (record_id : Nat) (now : Int) (limit : Option Nat)
    (hno : ∀ c ∈ db.children, ¬(c.child_id = child_id ∧ c.parent_id = parent_id)) :
    get_child_by_id db child_id parent_id = none ∧
    create_growth_record db child_id record_data parent_id record_id now =
      .error childNotFoundError ∧
    get_child_growth_history db child_id parent_id limit = .error childNotFoundError ∧
    analyze_growth_trends db child_id parent_id = .error childNotFoundError := by
  have hnone : get_child_by_id db child_id parent_id = none := by
    apply List.find?_eq_none.mpr
    intro c hc
    simp only [Bool.and_eq_true, beq_iff_eq, not_and]
    intro h1 h2
    exact hno c hc ⟨h1, h2⟩
  refine ⟨hnone, ?_, ?_, ?_⟩
  · simp only [create_growth_record, hnone]
  · simp only [get_child_growth_history, hnone]
  · simp only [analyze_growth_trends, get_child_growth_history, hnone]

theorem ownership_isolation_witness :
    (∀ c ∈ exDB.children, ¬(c.child_id = 1 ∧ c.parent_id = 2)) ∧
    (get_child_by_id exDB 1 2 = none ∧
     create_growth_record exDB 1 exCreate 2 7 0 = .error childNotFoundError ∧
     get_child_growth_history exDB 1 2 (some 5) = .error childNotFoundError ∧
     analyze_growth_trends exDB 1 2 = .error childNotFoundError) :=
  ⟨by decide, ownership_isolation exDB 1 2 exCreate 7 0 (some 5) (by decide)⟩

/-- C9: for a child passing the ownership check with fewer than 2 growth
records, analyze_growth_trends returns exactly empty trends and empty
alerts (and no total_records key). -/
theorem analyze_trends_fewer_than_two (db : DB) (child_id parent_id : Nat) (c : Child)
    (hown : get_child_by_id db child_id parent_id = some c)
    (hcount : (db.records.filter (fun r => r.child_id == child_id)).length < 2) :
    analyze_growth_trends db child_id parent_id =
      .ok { trends := [], alerts := [], total_records := none } := by
  have htake : ((sortByKey (fun r => -r.recorded_at)
      (db.records.filter (fun r => r.child_id == child_id))).take 5).length < 2 := by
    rw [List.length_take, sortByKey_length]
    omega
  simp only [analyze_growth_trends, get_child_growth_history, hown]
  rw [if_pos (by norm_num : (5 : Nat) ≠ 0), if_pos htake]

theorem analyze_trends_fewer_than_two_witness :
    get_child_by_id exDB1 1 1 = some exChild ∧
    (exDB1.records.filter (fun r => r.child_id == 1)).length < 2 ∧
    analyze_growth_trends exDB1 1 1 =
      .ok { trends := [], alerts := [], total_records := none } :=
  ⟨rfl, by decide, analyze_trends_fewer_than_two exDB1 1 1 exChild rfl (by decide)⟩

/-- The weight/height classification block produces the spec-level
first-versus-last classification, and appends the alert exactly when the
trend is decreasing. -/
theorem trend_entry_spec (label alertText : String) (values : List ℚ)
    (h : 2 ≤ values.length) :
    (trend_entry label alertText values).1 =
      [(label, trend_classification (values.headD 0) (values.getLastD 0))] ∧
    (trend_entry label alertText values).2 =
      (if values.getLastD 0 < values.headD 0 then [alertText] else []) := by
  unfold trend_entry trend_classification
  rw [if_pos h]
  constructor
  · split_ifs <;> rfl
  · split_ifs <;> first | rfl | linarith

/-- C10: for a child with at least 2 growth records, analyze_growth_trends
sorts the up-to-5 most recent records ascending by age_months and
classifies the weight and height trends independently by strict
first-versus-last comparison, appending the fixed alert string when a trend
is decreasing. -/
theorem analyze_trends_classification (db : DB) (child_id parent_id : Nat)
    (recs0 : List GrowthRecord)
    (hhist : get_child_growth_history db child_id parent_id (some 5) = .ok recs0)
    (hlen : 2 ≤ recs0.length) :
    ∃ res, analyze_growth_trends db child_id parent_id = .ok res ∧
      res.trends.lookup "weight" =
        some (trend_classification
          (((sortByKey (fun r => r.age_months) recs0).map (fun r => r.weight_kg)).headD 0)
          (((sortByKey (fun r => r.age_months) recs0).map (fun r => r.weight_kg)).getLastD 0)) ∧
      res.trends.lookup "height" =
        some (trend_classification
          (((sortByKey (fun r => r.age_months) recs0).map (fun r => r.height_cm)).headD 0)
          (((sortByKey (fun r => r.age_months) recs0).map (fun r => r.height_cm)).getLastD 0)) ∧
      ((((sortByKey (fun r => r.age_months) recs0).map (fun r => r.weight_kg)).getLastD 0 <
          ((sortByKey (fun r => r.age_months) recs0).map (fun r => r.weight_kg)).headD 0) →
        "Weight showing decreasing trend" ∈ res.alerts) ∧
      ((((sortByKey (fun r => r.age_months) recs0).map (fun r => r.height_cm)).getLastD 0 <
          ((sortByKey (fun r => r.age_months) recs0).map (fun r => r.height_cm)).headD 0) →
        "Height showing concerning pattern" ∈ res.alerts) ∧
      res.total_records = some recs0.length := by
  have h2 : ¬ recs0.length < 2 := by omega
  have hwlen : 2 ≤ ((sortByKey (fun r => r.age_months) recs0).map
      (fun r => r.weight_kg)).length := by
    rw [List.length_map, sortByKey_length]
    exact hlen
  have hhlen : 2 ≤ ((sortByKey (fun r => r.age_months) recs0).map
      (fun r => r.height_cm)).length := by
    rw [List.length_map, sortByKey_length]
    exact hlen
  obtain ⟨hw1, hw2⟩ := trend_entry_spec "weight" "Weight showing decreasing trend" _ hwlen
  obtain ⟨hh1, hh2⟩ := trend_entry_spec "height" "Height showing concerning pattern" _ hhlen
  simp only [analyze_growth_trends, hhist]
  rw [if_neg h2]
  refine ⟨_, rfl, ?_, ?_, ?_, ?_, ?_⟩
  · rw [hw1, hh1]
    rfl
  · rw [hw1, hh1]
    rfl
  · intro hlt
    rw [hw2, hh2, if_pos hlt]
    simp
  · intro hlt
    rw [hw2, hh2, if_pos hlt]
    simp
  · rw [sortByKey_length]

theorem analyze_trends_classification_witness :
    2 ≤ ([exRecNew, exRecOld] : List GrowthRecord).length ∧
    ∃ res, analyze_growth_trends exDB2 1 1 = .ok res ∧
      res.trends.lookup "weight" = some "decreasing" ∧
      "Weight showing decreasing trend" ∈ res.alerts := by
  refine ⟨by decide, ?_⟩
  obtain ⟨res, h1, hw, hh, haw, hah, ht⟩ :=
    analyze_trends_classification exDB2 1 1 [exRecNew, exRecOld] rfl (by decide)
  refine ⟨res, h1, ?_, ?_⟩
  · rw [hw]
    rfl
  · exact haw (by decide)

end AIUnder5
